import Mathlib

/-!
# CanvasLayerD3D10

A shallow embedding of `gfx/layers/d3d10/CanvasLayerD3D10.cpp`:
`Initialize`, `UpdateSurface` and `RenderLayer` become functions on an explicit
layer record.  Every call that leaves the translation unit (the D3D10 device,
the GL screen buffer, the 2D drawing factory, the effect object) is answered by
an environment record `Env`, and is written to a list of `Event`s in program
order, so that properties of the order and number of calls can be stated.
-/

namespace CanvasLayerD3D10

/-! ## Objects living outside the layer -/

/-- An `ID3D10Texture2D` object, named by an identity. -/
structure Texture where
  id : Nat
deriving DecidableEq, Repr

/-- An `ID3D10ShaderResourceView`: the texture it was created from and its own identity. -/
structure SRView where
  tex : Texture
  id : Nat
deriving DecidableEq, Repr

/-- A `gfx::SourceSurface` (the read-only snapshot of a draw target). -/
structure SourceSurface where
  id : Nat
deriving DecidableEq, Repr

/-- The tag `SharedSurface::mType`; only `EGLSurfaceANGLE` is inspected by the layer. -/
inductive SharedSurfaceType where
  | Unknown
  | Basic
  | GLTextureShare
  | EGLImageShare
  | EGLSurfaceANGLE
  | DXGLInterop
  | Gralloc
deriving DecidableEq, Repr

/-- A `gl::SharedSurface`: identity, type tag, and the share handle that
`SharedSurface_ANGLEShareHandle::GetShareHandle` returns for it. -/
structure SharedSurface where
  id : Nat
  mType : SharedSurfaceType
  shareHandle : Nat
deriving DecidableEq, Repr

/-- A `gl::GLContext` with the two queries `Initialize` makes of it. -/
structure GLContext where
  id : Nat
  isOffscreen : Bool
  isANGLE : Bool
deriving DecidableEq, Repr

/-- A `gfx::DrawTarget`: `GetNativeSurface(NativeSurfaceType::D3D10_TEXTURE)`
(null when there is none) and the surface `Snapshot()` returns. -/
structure DrawTarget where
  id : Nat
  nativeD3D10Texture : Option Texture
  snapshot : SourceSurface
deriving DecidableEq, Repr

/-- The value `gl::OriginPos`. -/
inductive OriginPos where
  | TopLeft
  | BottomLeft
deriving DecidableEq, Repr

/-- The value `GraphicsFilter`; only `FILTER_NEAREST` is inspected by the layer. -/
inductive GraphicsFilter where
  | FILTER_FAST
  | FILTER_GOOD
  | FILTER_BEST
  | FILTER_NEAREST
  | FILTER_BILINEAR
  | FILTER_GAUSSIAN
deriving DecidableEq, Repr

/-- An `nsIntRect`. -/
structure IntRect where
  x : Int
  y : Int
  width : Int
  height : Int
deriving DecidableEq, Repr

/-- A `ShaderConstantRectD3D10`, four `float`s.  Every value the layer stores in
one is a whole number (a layer bound cast to `float`, or one of the literals 0,
1.0f and -1.0f), so each component is kept as the integer it equals. -/
structure ShaderConstantRectD3D10 where
  mX : Int
  mY : Int
  mWidth : Int
  mHeight : Int
deriving DecidableEq, Repr

/-- The effect variables written by `RenderLayer`. -/
structure Effect where
  tRGB : Option SRView
  vLayerQuad : ShaderConstantRectD3D10
  vTextureCoords : ShaderConstantRectD3D10
deriving DecidableEq, Repr

/-- The messages of `NS_ASSERTION`, `NS_WARNING` and `gfxWarning`; none of them stops the program. -/
inductive Diag where
  | initializeCalledTwice
  | glContextMustBeOffscreen
  | bothDrawTargetAndGLContext
  | failedToCreateTexture
  | failedToLockTexture
  | invalidTextureTarget
  | failedToReadback
deriving DecidableEq, Repr

/-- One call leaving the layer, in the order the program makes them.  `Draw`
carries the effect variables as they stand when the draw is issued. -/
inductive Event where
  | diag (d : Diag)
  | Morph (gl : GLContext)
  | Snapshot (dt : DrawTarget)
  | CreateTexture2D (width height : Nat)
  | Flush (dt : DrawTarget)
  | WaitSync (s : SharedSurface)
  | GetShareHandle (s : SharedSurface)
  | OpenSharedResource (handle : Nat)
  | CreateShaderResourceView (t : Texture)
  | Map (t : Texture)
  | CreateDrawTargetForD3D10Texture (t : Texture)
  | ReadbackSharedSurface (s : SharedSurface)
  | DrawSurface (src : SourceSurface) (r : IntRect)
  | Unmap (t : Texture)
  | FirePreTransactionCallback
  | FireDidTransactionCallback
  | SetEffectTransformAndOpacity
  | LoadMaskTexture
  | SelectShader (flags : Nat)
  | SetResource (v : SRView)
  | SetLayerQuad (r : ShaderConstantRectD3D10)
  | SetTextureCoords (r : ShaderConstantRectD3D10)
  | ApplyPass (technique : Nat)
  | Draw (vertexCount start : Nat) (eff : Effect)
deriving DecidableEq, Repr

/-- The shader flag constants of `LayerD3D10`.  Their declaration is in
`LayerManagerD3D10.h`, so they are a parameter of the embedding. -/
structure ShaderConsts where
  SHADER_RGB : Nat
  SHADER_RGBA : Nat
  SHADER_NON_PREMUL : Nat
  SHADER_PREMUL : Nat
  SHADER_LINEAR : Nat
  SHADER_POINT : Nat
deriving DecidableEq, Repr

/-- The answers of everything the layer calls during one `Initialize` or one
frame.  A COM creation call answers `none` when its `HRESULT` is a failure
(the out pointer is then null) and `some` of the new object otherwise. -/
structure Env where
  WebGLForceLayersReadback : Bool
  factoryCreate : GLContext → Bool
  CreateTexture2D : Nat → Nat → Option Texture
  CreateShaderResourceView : Texture → Option Nat
  frontSurf : GLContext → Option SharedSurface
  OpenSharedResource : Nat → Option Texture
  Map : Texture → Bool
  CreateDrawTargetForD3D10Texture : Texture → Bool
  ReadbackSharedSurface : SharedSurface → Bool
  LoadMaskTexture : Nat
  SelectShader : Nat → Nat
  consts : ShaderConsts

/-! ## The layer -/

/-- The argument `CanvasLayer::Data` of `Initialize`, with the fields it reads. -/
structure Data where
  mGLContext : Option GLContext
  mDrawTarget : Option DrawTarget
  width : Int
  height : Int
  mIsGLAlphaPremult : Bool
deriving DecidableEq, Repr

/-- The members of `CanvasLayerD3D10` that the three functions read or write,
with `mDirty`, `mBounds` and `mFilter` inherited from `CanvasLayer`. -/
structure Layer where
  mSurface : Option SourceSurface
  mDrawTarget : Option DrawTarget
  mGLContext : Option GLContext
  mTexture : Option Texture
  mUploadSRView : Option SRView
  mSRView : Option SRView
  mDataIsPremultiplied : Bool
  mOriginPos : OriginPos
  mIsD2DTexture : Bool
  mHasAlpha : Bool
  mDirty : Bool
  mBounds : IntRect
  mFilter : GraphicsFilter
deriving DecidableEq, Repr

/-- The constructor: it sets `mDataIsPremultiplied`, `mOriginPos` and
`mHasAlpha`; the smart pointers start null.  `mIsD2DTexture` has no
initialiser, and `mDirty`, `mBounds`, `mFilter` are set by the base class, so
their starting values are arguments. -/
def construct (isD2DTexture dirty : Bool) (bounds : IntRect) (filter : GraphicsFilter) : Layer :=
  { mSurface := none, mDrawTarget := none, mGLContext := none, mTexture := none,
    mUploadSRView := none, mSRView := none,
    mDataIsPremultiplied := true, mOriginPos := OriginPos.TopLeft,
    mIsD2DTexture := isD2DTexture, mHasAlpha := true,
    mDirty := dirty, mBounds := bounds, mFilter := filter }

/-- Modelled from the spec: `CanvasLayer::IsDirty` is declared outside this
file; the spec's DirtyState is a boolean "set externally whenever new content
has been painted". -/
def IsDirty (l : Layer) : Bool := l.mDirty

/-- Modelled from the spec: `CanvasLayer::Painted` is declared outside this
file; the spec's DirtyState is "cleared by the core". -/
def Painted (l : Layer) : Layer := { l with mDirty := false }

/-- Modelled from the spec: `CanvasLayer::Updated` is declared outside this
file; it is the external setting of DirtyState. -/
def Updated (l : Layer) : Layer := { l with mDirty := true }

/-- The call `device()->CreateShaderResourceView(t, nullptr, getter_AddRefs(p))`:
`getter_AddRefs` releases and nulls `p` before the call, so afterwards `p`
holds the new view, or null when the call failed. -/
def createView (env : Env) (t : Texture) : Option SRView :=
  (env.CreateShaderResourceView t).map (fun i => { tex := t, id := i })

/-- The conversion of an `int` argument to a `UINT` parameter: the value modulo 2^32. -/
def toUINT (n : Int) : Nat := (n % 4294967296).toNat

/-- Lines 83-97 of `Initialize`: the bounds, the dynamic texture and its upload
view.  `CD3D10_TEXTURE2D_DESC` takes its width and height as `UINT`. -/
def initReadbackTexture (env : Env) (aData : Data) (l : Layer) (tr : List Event) :
    Layer × List Event :=
  let l1 := { l with mBounds := { x := 0, y := 0, width := aData.width, height := aData.height },
                     mIsD2DTexture := false }
  let tr1 := tr ++ [Event.CreateTexture2D (toUINT l1.mBounds.width) (toUINT l1.mBounds.height)]
  match env.CreateTexture2D (toUINT l1.mBounds.width) (toUINT l1.mBounds.height) with
  | none => ({ l1 with mTexture := none }, tr1 ++ [Event.diag Diag.failedToCreateTexture])
  | some t =>
    ({ l1 with mTexture := some t, mUploadSRView := createView env t },
     tr1 ++ [Event.CreateShaderResourceView t])

/-- The function `CanvasLayerD3D10::Initialize`.  The result is `none` when
`MOZ_CRASH` is reached. -/
def Initialize (env : Env) (aData : Data) (l : Layer) : Option (Layer × List Event) :=
  let tr0 := if l.mSurface = none then [] else [Event.diag Diag.initializeCalledTwice]
  match aData.mGLContext with
  | some gl =>
    let l1 := { l with mGLContext := some gl,
                       mDataIsPremultiplied := aData.mIsGLAlphaPremult,
                       mOriginPos := OriginPos.TopLeft }
    let tr1 := tr0 ++ (if gl.isOffscreen then [] else [Event.diag Diag.glContextMustBeOffscreen])
    let factory : Bool :=
      if !env.WebGLForceLayersReadback then
        (if gl.isANGLE then env.factoryCreate gl else false)
      else false
    let tr2 := tr1 ++ (if factory then [Event.Morph gl] else [])
    some (initReadbackTexture env aData l1 tr2)
  | none =>
    match aData.mDrawTarget with
    | some dt =>
      let l1 := { l with mDrawTarget := some dt }
      match dt.nativeD3D10Texture with
      | some texture =>
        let tr1 := tr0 ++
          (if aData.mGLContext.isSome then [Event.diag Diag.bothDrawTargetAndGLContext] else [])
        some ({ l1 with mTexture := some texture,
                        mBounds := { x := 0, y := 0, width := aData.width, height := aData.height },
                        mSRView := createView env texture },
              tr1 ++ [Event.CreateShaderResourceView texture])
      | none =>
        some (initReadbackTexture env aData { l1 with mSurface := some dt.snapshot }
                (tr0 ++ [Event.Snapshot dt]))
    | none => none

/-- Lines 147-175 of `UpdateSurface`: map the texture, build the drawing
target, write into it, unmap, and store the upload view. -/
def mapAndWrite (env : Env) (l : Layer) (tex : Texture) (surf : Option SharedSurface)
    (tr : List Event) : Layer × List Event :=
  let tr1 := tr ++ [Event.Map tex]
  if !env.Map tex then
    (l, tr1 ++ [Event.diag Diag.failedToLockTexture])
  else
    let tr2 := tr1 ++ [Event.CreateDrawTargetForD3D10Texture tex]
    if !env.CreateDrawTargetForD3D10Texture tex then
      (l, tr2 ++ [Event.diag Diag.invalidTextureTarget])
    else
      let tr3 :=
        match surf with
        | some s =>
          tr2 ++ [Event.ReadbackSharedSurface s] ++
            (if env.ReadbackSharedSurface s then [] else [Event.diag Diag.failedToReadback])
        | none =>
          match l.mSurface with
          | some src =>
            tr2 ++ [Event.DrawSurface src
                      { x := 0, y := 0, width := l.mBounds.width, height := l.mBounds.height }]
          | none => tr2
      ({ l with mSRView := l.mUploadSRView }, tr3 ++ [Event.Unmap tex])

/-- Lines 113-176 of `UpdateSurface`: everything after the flush.  The two
device calls of the share-handle import write through `getter_AddRefs` into the
members themselves: `getter_AddRefs(mTexture)` releases and nulls `mTexture`
before `OpenSharedResource` runs, so a failed call leaves it null, and a
successful call has replaced it before `CreateShaderResourceView` is tried. -/
def importFrame (env : Env) (l : Layer) (tr : List Event) : Layer × List Event :=
  match l.mTexture with
  | none => (l, tr)
  | some tex =>
    match l.mGLContext with
    | some gl =>
      match env.frontSurf gl with
      | none => (l, tr)
      | some surf =>
        let tr1 := tr ++ [Event.WaitSync surf]
        if surf.mType = SharedSurfaceType.EGLSurfaceANGLE then
          let tr2 := tr1 ++ [Event.GetShareHandle surf, Event.OpenSharedResource surf.shareHandle]
          match env.OpenSharedResource surf.shareHandle with
          | none => ({ l with mTexture := none }, tr2)
          | some opened =>
            ({ l with mTexture := some opened, mSRView := createView env opened },
             tr2 ++ [Event.CreateShaderResourceView opened])
        else
          mapAndWrite env l tex (some surf) tr1
    | none => mapAndWrite env l tex none tr

/-- The function `CanvasLayerD3D10::UpdateSurface`: the layer afterwards and the
calls it made. -/
def UpdateSurface (env : Env) (l : Layer) : Layer × List Event :=
  if !IsDirty l then (l, [])
  else
    let l1 := Painted l
    match l1.mDrawTarget with
    | some dt => importFrame env l1 [Event.Flush dt]
    | none =>
      if l1.mIsD2DTexture then (l1, [])
      else importFrame env l1 []

/-- A value stored in a `uint8_t`. -/
def u8 (n : Nat) : Nat := n % 256

/-- Lines 198-204 of `RenderLayer`: the flag byte handed to `SelectShader`. -/
def shaderFlags (c : ShaderConsts) (mask : Nat) (premultiplied hasAlpha nearest : Bool) : Nat :=
  let f0 : Nat := 0
  let f1 := u8 (f0 ||| mask)
  let f2 := u8 (f1 ||| (if premultiplied then c.SHADER_PREMUL
                         else c.SHADER_NON_PREMUL ||| c.SHADER_RGBA))
  let f3 := u8 (f2 ||| (if hasAlpha then c.SHADER_RGBA else c.SHADER_RGB))
  u8 (f3 ||| (if nearest then c.SHADER_POINT else c.SHADER_LINEAR))

/-- The cast `(float)n` of an `int`: below 2^24 in magnitude the value is kept;
above, it is rounded to the nearest value with a 24-bit significand, a tie going
to the even significand.  The result is a whole number and is returned as one. -/
def floatOfInt (n : Int) : Int :=
  let a := n.natAbs
  if a < 16777216 then n
  else
    let e := Nat.log2 a - 23
    let q := a / 2 ^ e
    let r := a % 2 ^ e
    let half := 2 ^ (e - 1)
    let q1 := if half < r ∨ (r = half ∧ q % 2 = 1) then q + 1 else q
    if n < 0 then -((q1 * 2 ^ e : Nat) : Int) else ((q1 * 2 ^ e : Nat) : Int)

/-- The result of one `RenderLayer` call. -/
structure Rendered where
  layer : Layer
  effect : Effect
  trace : List Event
deriving DecidableEq, Repr

/-- Lines 194-237 of `RenderLayer`: the part after the texture test. -/
def drawQuad (env : Env) (eff : Effect) (l : Layer) (tr : List Event) : Rendered :=
  let flags := shaderFlags env.consts env.LoadMaskTexture l.mDataIsPremultiplied l.mHasAlpha
    (decide (l.mFilter = GraphicsFilter.FILTER_NEAREST))
  let technique := env.SelectShader flags
  let tr1 := tr ++ [Event.SetEffectTransformAndOpacity, Event.LoadMaskTexture,
                    Event.SelectShader flags]
  let (eff1, tr2) :=
    match l.mSRView with
    | some v => ({ eff with tRGB := some v }, tr1 ++ [Event.SetResource v])
    | none => (eff, tr1)
  let quad : ShaderConstantRectD3D10 :=
    { mX := floatOfInt l.mBounds.x, mY := floatOfInt l.mBounds.y,
      mWidth := floatOfInt l.mBounds.width, mHeight := floatOfInt l.mBounds.height }
  let eff2 := { eff1 with vLayerQuad := quad }
  let tr3 := tr2 ++ [Event.SetLayerQuad quad]
  let needsYFlip : Bool := decide (l.mOriginPos = OriginPos.BottomLeft)
  let flipped : ShaderConstantRectD3D10 := { mX := 0, mY := 1, mWidth := 1, mHeight := -1 }
  let identity : ShaderConstantRectD3D10 := { mX := 0, mY := 0, mWidth := 1, mHeight := 1 }
  let (eff3, tr4) :=
    if needsYFlip then ({ eff2 with vTextureCoords := flipped }, tr3 ++ [Event.SetTextureCoords flipped])
    else (eff2, tr3)
  let tr5 := tr4 ++ [Event.ApplyPass technique, Event.Draw 4 0 eff3]
  if needsYFlip then
    { layer := l, effect := { eff3 with vTextureCoords := identity },
      trace := tr5 ++ [Event.SetTextureCoords identity] }
  else
    { layer := l, effect := eff3, trace := tr5 }

/-- The function `CanvasLayerD3D10::RenderLayer`. -/
def RenderLayer (env : Env) (eff : Effect) (l : Layer) : Rendered :=
  let u := UpdateSurface env l
  let tr := [Event.FirePreTransactionCallback] ++ u.2 ++ [Event.FireDidTransactionCallback]
  match u.1.mTexture with
  | none => { layer := u.1, effect := eff, trace := tr }
  | some _ => drawQuad env eff u.1 tr

/-! ## Sequences of frames -/

/-- One frame: whether the canvas was repainted before it (`Updated`), and the
answers of the environment during its `UpdateSurface`. -/
structure Frame where
  updated : Bool
  env : Env

/-- The `UpdateSurface` call of one frame. -/
def stepFrame (l : Layer) (f : Frame) : Layer × List Event :=
  UpdateSurface f.env (if f.updated then Updated l else l)

/-- The layer after the `UpdateSurface` calls of a list of frames. -/
def runFrames : Layer → List Frame → Layer
  | l, [] => l
  | l, f :: fs => runFrames (stepFrame l f).1 fs

/-! ## Observations on traces -/

/-- Whether a call list contains a `Draw`. -/
def issuesDraw (tr : List Event) : Bool :=
  tr.any (fun e => match e with
    | Event.Draw _ _ _ => true
    | _ => false)

/-- The calls that `UpdateSurface` can make: the producer and device calls of the import stage. -/
def isImportEvent : Event → Bool
  | Event.diag _ => true
  | Event.Flush _ => true
  | Event.WaitSync _ => true
  | Event.GetShareHandle _ => true
  | Event.OpenSharedResource _ => true
  | Event.CreateShaderResourceView _ => true
  | Event.Map _ => true
  | Event.CreateDrawTargetForD3D10Texture _ => true
  | Event.ReadbackSharedSurface _ => true
  | Event.DrawSurface _ _ => true
  | Event.Unmap _ => true
  | _ => false

/-- The calls that consume a shared surface. -/
def isSurfaceUse : Event → Bool
  | Event.GetShareHandle _ => true
  | Event.OpenSharedResource _ => true
  | Event.ReadbackSharedSurface _ => true
  | _ => false

/-- The call `e` consumes the shared surface `s`: it reads its share handle,
opens that handle, or reads the surface back. -/
def usesSurface (s : SharedSurface) : Event → Bool
  | Event.GetShareHandle s1 => decide (s1 = s)
  | Event.OpenSharedResource h => decide (h = s.shareHandle)
  | Event.ReadbackSharedSurface s1 => decide (s1 = s)
  | _ => false

/-! ## Sample inputs -/

/-- Flag constants of the shape `LayerManagerD3D10.h` gives them: `SHADER_RGB`,
`SHADER_NON_PREMUL` and `SHADER_LINEAR` are 0, and `SHADER_RGBA`, `SHADER_PREMUL`
and `SHADER_POINT` are one bit each, above the mask bits. -/
def sampleConsts : ShaderConsts :=
  { SHADER_RGB := 0, SHADER_RGBA := 4, SHADER_NON_PREMUL := 0, SHADER_PREMUL := 8,
    SHADER_LINEAR := 0, SHADER_POINT := 16 }

/-- An environment in which every call succeeds and the front surface is an
ANGLE share-handle surface. -/
def sampleEnv : Env :=
  { WebGLForceLayersReadback := false
    factoryCreate := fun _ => true
    CreateTexture2D := fun _ _ => some { id := 1 }
    CreateShaderResourceView := fun t => some (t.id + 100)
    frontSurf := fun _ => some { id := 7, mType := SharedSurfaceType.EGLSurfaceANGLE, shareHandle := 42 }
    OpenSharedResource := fun _ => some { id := 2 }
    Map := fun _ => true
    CreateDrawTargetForD3D10Texture := fun _ => true
    ReadbackSharedSurface := fun _ => true
    LoadMaskTexture := 0
    SelectShader := fun f => f
    consts := sampleConsts }

/-- A layer as the constructor leaves it. -/
def freshLayer : Layer :=
  construct false false { x := 0, y := 0, width := 0, height := 0 } GraphicsFilter.FILTER_GOOD

/-- An effect with the identity texture rectangle. -/
def sampleEffect : Effect :=
  { tRGB := none
    vLayerQuad := { mX := 0, mY := 0, mWidth := 0, mHeight := 0 }
    vTextureCoords := { mX := 0, mY := 0, mWidth := 1, mHeight := 1 } }

/-- An offscreen ANGLE context. -/
def sampleGL : GLContext := { id := 1, isOffscreen := true, isANGLE := true }

/-- A draw target without a native D3D10 texture. -/
def sampleDrawTarget : DrawTarget := { id := 5, nativeD3D10Texture := none, snapshot := { id := 9 } }

/-- A draw target backed by a native D3D10 texture. -/
def nativeDrawTarget : DrawTarget :=
  { id := 6, nativeD3D10Texture := some { id := 3 }, snapshot := { id := 10 } }

/-- A layer of the GPU-context mode holding an imported texture and its view. -/
def importedLayer : Layer :=
  { freshLayer with
    mGLContext := some sampleGL
    mTexture := some { id := 20 }
    mSRView := some { tex := { id := 20 }, id := 120 }
    mUploadSRView := some { tex := { id := 1 }, id := 101 }
    mDirty := true }

/-- A descriptor of the CPU-surface mode: a draw target without a native texture. -/
def cpuData : Data :=
  { mGLContext := none, mDrawTarget := some sampleDrawTarget, width := 4, height := 4,
    mIsGLAlphaPremult := true }

/-- The sample environment, except that `Map` fails. -/
def mapFailEnv : Env := { sampleEnv with Map := fun _ => false }

/-- A descriptor of the native-texture mode: a draw target backed by a D3D10 texture. -/
def nativeData : Data :=
  { mGLContext := none, mDrawTarget := some nativeDrawTarget, width := 4, height := 4,
    mIsGLAlphaPremult := true }

/-- The sample environment, except that `CreateDrawTargetForD3D10Texture` returns null. -/
def targetFailEnv : Env := { sampleEnv with CreateDrawTargetForD3D10Texture := fun _ => false }

/-- The sample environment, except that `CreateShaderResourceView` fails. -/
def viewFailEnv : Env := { sampleEnv with CreateShaderResourceView := fun _ => none }

/-- The sample environment, except that `OpenSharedResource` fails. -/
def openFailEnv : Env := { sampleEnv with OpenSharedResource := fun _ => none }

/-- The sample environment, except that the front surface is not an ANGLE share-handle surface. -/
def readbackEnv : Env :=
  { sampleEnv with
    frontSurf := fun _ => some { id := 8, mType := SharedSurfaceType.Basic, shareHandle := 0 } }

/-- The layer `Initialize` returns for `cpuData` in the sample environment. -/
def cpuLayer : Layer :=
  { freshLayer with
    mDrawTarget := some sampleDrawTarget
    mSurface := some { id := 9 }
    mBounds := { x := 0, y := 0, width := 4, height := 4 }
    mTexture := some { id := 1 }
    mUploadSRView := some { tex := { id := 1 }, id := 101 } }

/-- A clean GPU-context layer holding a texture, with non-premultiplied content. -/
def nonPremulLayer (hasAlpha : Bool) : Layer :=
  { importedLayer with mDirty := false, mDataIsPremultiplied := false, mHasAlpha := hasAlpha }

/-- A clean GPU-context layer holding a texture, with premultiplied content. -/
def premulLayer (hasAlpha : Bool) : Layer :=
  { importedLayer with mDirty := false, mDataIsPremultiplied := true, mHasAlpha := hasAlpha }

/-! ## Theorems -/

/-! ### Calls made by `UpdateSurface` -/

/-- Every call made by `mapAndWrite` is an import-stage call, given that the calls before it are. -/
theorem mapAndWrite_events (env : Env) (l : Layer) (tex : Texture) (surf : Option SharedSurface)
    (tr : List Event) (htr : tr.all isImportEvent = true) :
    (mapAndWrite env l tex surf tr).2.all isImportEvent = true := by
  unfold mapAndWrite
  cases hm : env.Map tex <;> cases hc : env.CreateDrawTargetForD3D10Texture tex <;>
    cases surf <;> cases hs : l.mSurface <;>
    simp [hm, hc, hs, htr, isImportEvent, List.all_append]

/-- Every call made by `importFrame` is an import-stage call, given that the calls before it are. -/
theorem importFrame_events (env : Env) (l : Layer) (tr : List Event)
    (htr : tr.all isImportEvent = true) :
    (importFrame env l tr).2.all isImportEvent = true := by
  unfold importFrame
  split
  · exact htr
  · split
    · split
      · exact htr
      · split
        · split <;> simp [htr, isImportEvent, List.all_append]
        · exact mapAndWrite_events env l _ _ _ (by simp [htr, isImportEvent, List.all_append])
    · exact mapAndWrite_events env l _ _ _ htr

/-- Every call made by `UpdateSurface` is an import-stage call. -/
theorem UpdateSurface_events (env : Env) (l : Layer) :
    (UpdateSurface env l).2.all isImportEvent = true := by
  unfold UpdateSurface
  cases hd : l.mDirty <;> simp only [IsDirty, hd]
  · rfl
  · cases hdt : l.mDrawTarget <;> cases hi : l.mIsD2DTexture <;>
      simp only [Painted, hdt, hi, Bool.not_true, Bool.false_eq_true, if_false, if_true]
    · exact importFrame_events env _ _ (by simp)
    · rfl
    · exact importFrame_events env _ _ (by simp [isImportEvent])
    · exact importFrame_events env _ _ (by simp [isImportEvent])

/-- A list of import-stage calls contains no `Draw`. -/
theorem issuesDraw_of_import (tr : List Event) (h : tr.all isImportEvent = true) :
    issuesDraw tr = false := by
  induction tr with
  | nil => rfl
  | cons e rest ih =>
    simp only [List.all_cons, Bool.and_eq_true] at h
    unfold issuesDraw at ih ⊢
    simp only [List.any_cons, ih h.2, Bool.or_false]
    cases e <;> simp_all [isImportEvent]

/-- A list of import-stage calls contains no write of the texture rectangle. -/
theorem no_texcoords_of_import (tr : List Event) (h : tr.all isImportEvent = true)
    (c : ShaderConstantRectD3D10) : Event.SetTextureCoords c ∉ tr := by
  intro hm
  have := (List.all_eq_true.mp h) _ hm
  simp [isImportEvent] at this

/-- A list of import-stage calls contains no `Draw`, stated on membership. -/
theorem no_draw_of_import (tr : List Event) (h : tr.all isImportEvent = true)
    (n k : Nat) (e : Effect) : Event.Draw n k e ∉ tr := by
  intro hm
  have := (List.all_eq_true.mp h) _ hm
  simp [isImportEvent] at this

/-! ### Fields written by `UpdateSurface` -/

/-- The layer that `mapAndWrite` returns differs from its argument in `mSRView` only. -/
theorem mapAndWrite_layer (env : Env) (l : Layer) (tex : Texture) (surf : Option SharedSurface)
    (tr : List Event) :
    ∃ v, (mapAndWrite env l tex surf tr).1 = { l with mSRView := v } := by
  unfold mapAndWrite
  cases env.Map tex <;> cases env.CreateDrawTargetForD3D10Texture tex <;>
    first | exact ⟨l.mSRView, rfl⟩ | exact ⟨l.mUploadSRView, rfl⟩

/-- The layer that `importFrame` returns differs from its argument in `mTexture` and `mSRView` only. -/
theorem importFrame_layer (env : Env) (l : Layer) (tr : List Event) :
    ∃ t v, (importFrame env l tr).1 = { l with mTexture := t, mSRView := v } := by
  unfold importFrame
  split
  · exact ⟨l.mTexture, l.mSRView, rfl⟩
  · split
    · split
      · exact ⟨l.mTexture, l.mSRView, rfl⟩
      · split
        · split
          · exact ⟨none, l.mSRView, rfl⟩
          · exact ⟨_, _, rfl⟩
        · obtain ⟨v, hv⟩ := mapAndWrite_layer env l _ _ _
          exact ⟨l.mTexture, v, hv⟩
    · obtain ⟨v, hv⟩ := mapAndWrite_layer env l _ _ _
      exact ⟨l.mTexture, v, hv⟩

/-- The layer that `UpdateSurface` returns differs from its argument in
`mDirty`, `mTexture` and `mSRView` only. -/
theorem UpdateSurface_layer (env : Env) (l : Layer) :
    ∃ d t v, (UpdateSurface env l).1 = { l with mDirty := d, mTexture := t, mSRView := v } := by
  unfold UpdateSurface
  cases hd : l.mDirty <;> simp only [IsDirty, hd]
  · exact ⟨l.mDirty, l.mTexture, l.mSRView, rfl⟩
  · cases hdt : l.mDrawTarget <;> cases hi : l.mIsD2DTexture <;>
      simp only [Painted, hdt, hi, Bool.not_true, Bool.false_eq_true, if_false, if_true]
    · obtain ⟨t, v, h⟩ := importFrame_layer env { l with mDirty := false } []
      simp only [hdt, hi] at h
      exact ⟨false, t, v, by rw [h]⟩
    · exact ⟨false, l.mTexture, l.mSRView, by simp [hdt, hi]⟩
    · rename_i dt
      obtain ⟨t, v, h⟩ := importFrame_layer env { l with mDirty := false } [Event.Flush dt]
      simp only [hdt, hi] at h
      exact ⟨false, t, v, by rw [h]⟩
    · rename_i dt
      obtain ⟨t, v, h⟩ := importFrame_layer env { l with mDirty := false } [Event.Flush dt]
      simp only [hdt, hi] at h
      exact ⟨false, t, v, by rw [h]⟩

/-- The call `UpdateSurface` leaves `mOriginPos` as it was. -/
theorem UpdateSurface_origin (env : Env) (l : Layer) :
    (UpdateSurface env l).1.mOriginPos = l.mOriginPos := by
  obtain ⟨d, t, v, h⟩ := UpdateSurface_layer env l
  rw [h]

/-- Without a texture, `UpdateSurface` imports nothing and the texture stays absent. -/
theorem UpdateSurface_no_texture (env : Env) (l : Layer) (h : l.mTexture = none) :
    (UpdateSurface env l).1.mTexture = none := by
  unfold UpdateSurface
  cases hd : l.mDirty <;> simp only [IsDirty, hd]
  · simpa using h
  · cases hdt : l.mDrawTarget <;> cases hi : l.mIsD2DTexture <;>
      simp [Painted, hdt, hi, importFrame, h]

/-- Unless the front surface is an ANGLE share-handle surface, `importFrame`
leaves `mTexture` as it was. -/
theorem importFrame_texture_kept (env : Env) (l : Layer) (tr : List Event)
    (hno : ∀ gl s, l.mGLContext = some gl → env.frontSurf gl = some s →
      s.mType ≠ SharedSurfaceType.EGLSurfaceANGLE) :
    (importFrame env l tr).1.mTexture = l.mTexture := by
  rcases Option.eq_none_or_eq_some l.mTexture with ht | ⟨tex, ht⟩
  · simp only [importFrame, ht]
  rcases Option.eq_none_or_eq_some l.mGLContext with hg | ⟨gl, hg⟩
  · obtain ⟨v, hv⟩ := mapAndWrite_layer env l tex none tr
    simp only [importFrame, ht, hg, hv]
  rcases Option.eq_none_or_eq_some (env.frontSurf gl) with hf | ⟨surf, hf⟩
  · simp only [importFrame, ht, hg, hf]
  have hty := hno gl surf hg hf
  obtain ⟨v, hv⟩ := mapAndWrite_layer env l tex (some surf) (tr ++ [Event.WaitSync surf])
  simp only [importFrame, ht, hg, hf, hty, if_false, hv]

/-- Unless the front surface is an ANGLE share-handle surface, `UpdateSurface`
leaves `mTexture` as it was. -/
theorem UpdateSurface_texture_kept (env : Env) (l : Layer)
    (hno : ∀ gl s, l.mGLContext = some gl → env.frontSurf gl = some s →
      s.mType ≠ SharedSurfaceType.EGLSurfaceANGLE) :
    (UpdateSurface env l).1.mTexture = l.mTexture := by
  unfold UpdateSurface
  cases hd : l.mDirty <;> simp only [IsDirty, hd]
  · simp
  · cases hdt : l.mDrawTarget <;> cases hi : l.mIsD2DTexture <;>
      simp only [Painted, hdt, hi, Bool.not_true, Bool.false_eq_true, if_false, if_true]
    · exact importFrame_texture_kept env _ _ hno
    · exact importFrame_texture_kept env _ _ hno
    · exact importFrame_texture_kept env _ _ hno

/-! ### Calls made by `RenderLayer` -/

/-- The result `drawQuad` returns contains a `Draw`. -/
theorem drawQuad_issuesDraw (env : Env) (eff : Effect) (l : Layer) (tr : List Event) :
    issuesDraw (drawQuad env eff l tr).trace = true := by
  unfold drawQuad issuesDraw
  cases l.mSRView <;> cases l.mOriginPos <;> simp

/-- The calls `drawQuad` adds after the calls `tr` made before it. -/
theorem drawQuad_trace (env : Env) (eff : Effect) (l : Layer) (tr : List Event) :
    ∃ added, (drawQuad env eff l tr).trace = tr ++ added ∧
      (∃ e, Event.Draw 4 0 e ∈ added) ∧
      (l.mOriginPos = OriginPos.BottomLeft →
        ∀ n k e, Event.Draw n k e ∈ added →
          n = 4 ∧ k = 0 ∧ e.vTextureCoords = { mX := 0, mY := 1, mWidth := 1, mHeight := -1 }) ∧
      (l.mOriginPos = OriginPos.TopLeft → ∀ c, Event.SetTextureCoords c ∉ added) := by
  unfold drawQuad
  cases hv : l.mSRView <;> cases ho : l.mOriginPos <;>
    simp only [decide_True, decide_False, if_true, if_false, Bool.false_eq_true,
      List.append_assoc, reduceCtorEq] <;>
    refine ⟨_, rfl, ?_, ?_, ?_⟩ <;> simp <;>
    (intro n k e hn hk he; subst hn hk he; exact ⟨rfl, rfl, rfl⟩)

/-- The effect `drawQuad` leaves behind: the identity rectangle after a flip,
the rectangle it found otherwise. -/
theorem drawQuad_effect (env : Env) (eff : Effect) (l : Layer) (tr : List Event) :
    (l.mOriginPos = OriginPos.BottomLeft →
      (drawQuad env eff l tr).effect.vTextureCoords = { mX := 0, mY := 0, mWidth := 1, mHeight := 1 }) ∧
    (l.mOriginPos = OriginPos.TopLeft →
      (drawQuad env eff l tr).effect.vTextureCoords = eff.vTextureCoords) ∧
    (drawQuad env eff l tr).layer = l := by
  unfold drawQuad
  cases hv : l.mSRView <;> cases ho : l.mOriginPos <;> simp

/-- What `drawQuad` does with `tRGB`: with a view in `mSRView` it binds that
view; without, it binds nothing and leaves `tRGB` as it found it. -/
theorem drawQuad_resource (env : Env) (eff : Effect) (l : Layer) (tr : List Event) :
    (l.mSRView = none →
      (drawQuad env eff l tr).effect.tRGB = eff.tRGB ∧
      ∀ v, Event.SetResource v ∈ (drawQuad env eff l tr).trace → Event.SetResource v ∈ tr) ∧
    (∀ v, l.mSRView = some v →
      (drawQuad env eff l tr).effect.tRGB = some v ∧
      Event.SetResource v ∈ (drawQuad env eff l tr).trace) := by
  unfold drawQuad
  cases hv : l.mSRView <;> cases ho : l.mOriginPos <;> simp

/-- The flag byte `drawQuad` hands to `SelectShader`, and the technique it applies. -/
theorem drawQuad_select (env : Env) (eff : Effect) (l : Layer) (tr : List Event) (f : Nat) :
    (Event.SelectShader f ∈ (drawQuad env eff l tr).trace ↔
      (Event.SelectShader f ∈ tr ∨
        f = shaderFlags env.consts env.LoadMaskTexture l.mDataIsPremultiplied l.mHasAlpha
              (decide (l.mFilter = GraphicsFilter.FILTER_NEAREST)))) ∧
    Event.ApplyPass (env.SelectShader
        (shaderFlags env.consts env.LoadMaskTexture l.mDataIsPremultiplied l.mHasAlpha
          (decide (l.mFilter = GraphicsFilter.FILTER_NEAREST)))) ∈ (drawQuad env eff l tr).trace := by
  unfold drawQuad
  cases hv : l.mSRView <;> cases ho : l.mOriginPos <;> simp

/-- A list of import-stage calls between the two transaction callbacks holds no
`SetResource` and no `SelectShader`. -/
theorem no_render_calls_before_draw (tr : List Event) (h : tr.all isImportEvent = true) :
    (∀ v, Event.SetResource v ∉
      [Event.FirePreTransactionCallback] ++ tr ++ [Event.FireDidTransactionCallback]) ∧
    (∀ f, Event.SelectShader f ∉
      [Event.FirePreTransactionCallback] ++ tr ++ [Event.FireDidTransactionCallback]) := by
  constructor
  · intro v hm
    simp only [List.mem_append, List.mem_singleton, reduceCtorEq, false_or, or_false] at hm
    have := (List.all_eq_true.mp h) _ hm
    simp [isImportEvent] at this
  · intro f hm
    simp only [List.mem_append, List.mem_singleton, reduceCtorEq, false_or, or_false] at hm
    have := (List.all_eq_true.mp h) _ hm
    simp [isImportEvent] at this

/-- The call `UpdateSurface` leaves the three inputs of the flag byte as they were. -/
theorem UpdateSurface_flag_inputs (env : Env) (l : Layer) :
    (UpdateSurface env l).1.mDataIsPremultiplied = l.mDataIsPremultiplied ∧
    (UpdateSurface env l).1.mHasAlpha = l.mHasAlpha ∧
    (UpdateSurface env l).1.mFilter = l.mFilter := by
  obtain ⟨d, t, v, h⟩ := UpdateSurface_layer env l
  rw [h]
  exact ⟨rfl, rfl, rfl⟩

/-- When no texture is held after the `UpdateSurface` step, `RenderLayer` issues no draw. -/
theorem RenderLayer_no_texture (env : Env) (eff : Effect) (l : Layer)
    (h : (UpdateSurface env l).1.mTexture = none) :
    issuesDraw (RenderLayer env eff l).trace = false := by
  have hu := issuesDraw_of_import _ (UpdateSurface_events env l)
  unfold issuesDraw at hu
  simp [RenderLayer, h, issuesDraw, hu]

/-! ### C1: producers accepted by `Initialize` -/

/-- With neither producer set, `Initialize` reaches `MOZ_CRASH`. -/
theorem Initialize_no_producer (env : Env) (w h : Int) (p : Bool) (l : Layer) :
    Initialize env { mGLContext := none, mDrawTarget := none, width := w, height := h,
                     mIsGLAlphaPremult := p } l = none := rfl

/-- With a producer set, `Initialize` completes. -/
theorem Initialize_completes (env : Env) (aData : Data) (l : Layer)
    (h : aData.mGLContext.isSome = true ∨ aData.mDrawTarget.isSome = true) :
    (Initialize env aData l).isSome = true := by
  obtain ⟨g, d, w, ht, p⟩ := aData
  cases g with
  | some gl => rfl
  | none =>
    cases d with
    | some dt =>
      obtain ⟨i, native, snap⟩ := dt
      cases native <;> rfl
    | none => simp at h

/-- C1, the failing input evaluated: with both a GL context and a draw target in
the descriptor, `Initialize` does not abort.  It completes in GPU-context mode,
never looks at the draw target, and reports nothing: the assertion that forbids
the pair sits in the branch taken only without a GL context. -/
theorem Initialize_both_producers (env : Env) (gl : GLContext) (dt : DrawTarget) (w h : Int)
    (p : Bool) (l : Layer) :
    ∃ l1 tr, Initialize env { mGLContext := some gl, mDrawTarget := some dt, width := w,
                              height := h, mIsGLAlphaPremult := p } l = some (l1, tr) ∧
      l1.mGLContext = some gl ∧ l1.mDrawTarget = l.mDrawTarget ∧ l1.mSurface = l.mSurface ∧
      Event.diag Diag.bothDrawTargetAndGLContext ∉ tr := by
  refine ⟨_, _, rfl, ?_, ?_, ?_, ?_⟩
  all_goals
    simp only [initReadbackTexture]
    cases env.CreateTexture2D (toUINT w) (toUINT h) <;> cases l.mSurface <;> cases gl.isOffscreen <;>
      cases env.WebGLForceLayersReadback <;> cases gl.isANGLE <;> cases env.factoryCreate gl <;>
      simp

/-! ### C2: a clean layer -/

/-- C2: when the dirty flag is false, `UpdateSurface` returns at once: it makes
no producer or device call (the call list is empty) and the layer it returns is
the layer it was given, field for field. -/
theorem UpdateSurface_not_dirty (env : Env) (l : Layer) (h : l.mDirty = false) :
    UpdateSurface env l = (l, []) := by
  simp [UpdateSurface, IsDirty, h]

/-- C2, at a sample input: a clean layer holding an imported texture. -/
theorem UpdateSurface_not_dirty_witness :
    ({ importedLayer with mDirty := false } : Layer).mDirty = false ∧
      UpdateSurface sampleEnv { importedLayer with mDirty := false }
        = ({ importedLayer with mDirty := false }, []) :=
  ⟨rfl, UpdateSurface_not_dirty sampleEnv { importedLayer with mDirty := false } rfl⟩

/-! ### C3: failure of the share-handle import -/

/-- The layer after a dirty `UpdateSurface` in GPU-context mode whose front
surface is an ANGLE share-handle surface. -/
theorem UpdateSurface_angle (env : Env) (l : Layer) (gl : GLContext) (s : SharedSurface)
    (t0 : Texture) (hdirty : l.mDirty = true) (hd2d : l.mIsD2DTexture = false)
    (hgl : l.mGLContext = some gl) (hfront : env.frontSurf gl = some s)
    (hty : s.mType = SharedSurfaceType.EGLSurfaceANGLE) (ht : l.mTexture = some t0) :
    (UpdateSurface env l).1 =
      match env.OpenSharedResource s.shareHandle with
      | none => { l with mDirty := false, mTexture := none }
      | some t1 => { l with mDirty := false, mTexture := some t1, mSRView := createView env t1 } := by
  unfold UpdateSurface
  cases hdt : l.mDrawTarget <;>
    simp only [IsDirty, hdirty, Painted, hdt, hd2d, importFrame, ht, hgl, hfront, hty,
      Bool.not_true, Bool.false_eq_true, if_false, if_true] <;>
    cases env.OpenSharedResource s.shareHandle <;> rfl

/-- C3 fails as stated: a GPU-context layer holds texture 20 and its view; the
front surface is an ANGLE share-handle surface.  When `OpenSharedResource`
succeeds and `CreateShaderResourceView` fails, `mTexture` is the newly opened
texture 2 and `mSRView` is null.  When `OpenSharedResource` fails, `mTexture` is
null and the next `RenderLayer` issues no draw. -/
theorem angle_import_failure_replaces_cache :
    importedLayer.mTexture = some { id := 20 } ∧
    importedLayer.mSRView = some { tex := { id := 20 }, id := 120 } ∧
    (UpdateSurface viewFailEnv importedLayer).1.mTexture = some { id := 2 } ∧
    (UpdateSurface viewFailEnv importedLayer).1.mSRView = none ∧
    (UpdateSurface openFailEnv importedLayer).1.mTexture = none ∧
    issuesDraw (RenderLayer sampleEnv sampleEffect
      (UpdateSurface openFailEnv importedLayer).1).trace = false :=
  ⟨rfl, rfl, rfl, rfl, rfl, rfl⟩

/-- C3, as amended: in GPU-context mode with an ANGLE share-handle front surface
and a layer holding a texture and a view, a dirty `UpdateSurface` returns in
both failure cases and changes only `mDirty`, `mTexture` and `mSRView`.  When
`OpenSharedResource` fails, `mSRView` is the view held before, `mTexture` is
null, and a later `RenderLayer`, dirty or not, issues no draw.  When
`OpenSharedResource` succeeds and `CreateShaderResourceView` fails, `mTexture`
is the newly opened texture, `mSRView` is null, and the next `RenderLayer`
issues its draw without binding a view to `tRGB`. -/
theorem UpdateSurface_angle_failure (env : Env) (l : Layer) (gl : GLContext) (s : SharedSurface)
    (t0 : Texture) (v0 : SRView) (hdirty : l.mDirty = true) (hd2d : l.mIsD2DTexture = false)
    (hgl : l.mGLContext = some gl) (hfront : env.frontSurf gl = some s)
    (hty : s.mType = SharedSurfaceType.EGLSurfaceANGLE)
    (ht : l.mTexture = some t0) (hv : l.mSRView = some v0) :
    (env.OpenSharedResource s.shareHandle = none →
      (UpdateSurface env l).1 = { l with mDirty := false, mTexture := none } ∧
      (UpdateSurface env l).1.mSRView = some v0 ∧
      ∀ (env2 : Env) (eff : Effect) (dirty2 : Bool),
        issuesDraw (RenderLayer env2 eff
          { (UpdateSurface env l).1 with mDirty := dirty2 }).trace = false) ∧
    (∀ t1, env.OpenSharedResource s.shareHandle = some t1 →
      env.CreateShaderResourceView t1 = none →
      (UpdateSurface env l).1 = { l with mDirty := false, mTexture := some t1, mSRView := none } ∧
      ∀ (env2 : Env) (eff : Effect),
        issuesDraw (RenderLayer env2 eff (UpdateSurface env l).1).trace = true ∧
        (RenderLayer env2 eff (UpdateSurface env l).1).effect.tRGB = eff.tRGB) := by
  have hU := UpdateSurface_angle env l gl s t0 hdirty hd2d hgl hfront hty ht
  constructor
  · intro ho
    simp only [ho] at hU
    refine ⟨hU, by rw [hU]; exact hv, ?_⟩
    intro env2 eff dirty2
    apply RenderLayer_no_texture
    apply UpdateSurface_no_texture
    rw [hU]
  · intro t1 ho hc
    have hcv : createView env t1 = none := by simp [createView, hc]
    simp only [ho, hcv] at hU
    refine ⟨hU, ?_⟩
    intro env2 eff
    rw [hU]
    cases ho2 : l.mOriginPos <;>
      simp [RenderLayer, UpdateSurface, IsDirty, drawQuad, issuesDraw, ho2]

/-- C3 amended, at a sample input: texture 20 is held, `OpenSharedResource` fails. -/
theorem UpdateSurface_angle_failure_witness :
    (UpdateSurface openFailEnv importedLayer).1
        = { importedLayer with mDirty := false, mTexture := none } ∧
      (UpdateSurface openFailEnv importedLayer).1.mSRView
        = some { tex := { id := 20 }, id := 120 } :=
  have h := UpdateSurface_angle_failure openFailEnv importedLayer sampleGL
    { id := 7, mType := SharedSurfaceType.EGLSurfaceANGLE, shareHandle := 42 }
    { id := 20 } { tex := { id := 20 }, id := 120 } rfl rfl rfl rfl rfl rfl rfl
  ⟨(h.1 rfl).1, (h.1 rfl).2.1⟩

/-! ### C4: a draw target with a native texture -/

/-- A dirty layer built from a draw target with a native texture (no GL context)
starts its `UpdateSurface` with `Flush` and `Map` on that texture, whatever the
environment answers and whatever `mIsD2DTexture` holds. -/
theorem UpdateSurface_draw_target_maps (env : Env) (l : Layer) (dt : DrawTarget) (tex : Texture)
    (hdirty : l.mDirty = true) (hdt : l.mDrawTarget = some dt) (hgl : l.mGLContext = none)
    (ht : l.mTexture = some tex) :
    ∃ rest, (UpdateSurface env l).2 = Event.Flush dt :: Event.Map tex :: rest := by
  unfold UpdateSurface
  simp only [IsDirty, hdirty, Painted, hdt, importFrame, ht, hgl, mapAndWrite,
    Bool.not_true, Bool.false_eq_true, if_false]
  cases env.Map tex <;> cases env.CreateDrawTargetForD3D10Texture tex <;> cases l.mSurface <;> simp

/-- C4, the failing input evaluated: a layer initialised from a draw target with a
native D3D10 texture holds that texture and its view; its first dirty
`UpdateSurface` flushes, then calls `Map`, `CreateDrawTargetForD3D10Texture` and
`Unmap` on the native texture and replaces `mSRView` by the null upload view. -/
theorem UpdateSurface_native_texture_imports :
    ∃ l0 tr0, Initialize sampleEnv nativeData freshLayer = some (l0, tr0) ∧
      l0.mTexture = some { id := 3 } ∧
      l0.mSRView = some { tex := { id := 3 }, id := 103 } ∧
      (UpdateSurface sampleEnv (Updated l0)).2 =
        [Event.Flush nativeDrawTarget, Event.Map { id := 3 },
         Event.CreateDrawTargetForD3D10Texture { id := 3 }, Event.Unmap { id := 3 }] ∧
      (UpdateSurface sampleEnv (Updated l0)).1.mSRView = none ∧
      (UpdateSurface mapFailEnv (Updated l0)).2 =
        [Event.Flush nativeDrawTarget, Event.Map { id := 3 },
         Event.diag Diag.failedToLockTexture] :=
  ⟨_, _, rfl, rfl, rfl, rfl, rfl, rfl⟩

/-! ### C5: when `RenderLayer` draws -/

/-- C5 fails as stated: a CPU-surface layer straight from `Initialize` has no
view in `mSRView`; the import of its first dirty frame fails at `Map`, the view
is still absent, and `RenderLayer` issues the draw all the same, with `tRGB`
left unbound. -/
theorem RenderLayer_draws_without_view :
    ∃ l0 tr0, Initialize sampleEnv cpuData freshLayer = some (l0, tr0) ∧
      l0.mGLContext = none ∧ l0.mSurface = some sampleDrawTarget.snapshot ∧
      l0.mSRView = none ∧
      (RenderLayer mapFailEnv sampleEffect (Updated l0)).layer.mSRView = none ∧
      issuesDraw (RenderLayer mapFailEnv sampleEffect (Updated l0)).trace = true ∧
      (RenderLayer mapFailEnv sampleEffect (Updated l0)).effect.tRGB = none :=
  ⟨_, _, rfl, rfl, rfl, rfl, rfl, rfl, rfl⟩

/-- C5, as amended: `RenderLayer` issues a draw exactly when `mTexture` is
present after its `UpdateSurface` step, so with no texture it ends without a
draw.  A missing `mSRView` alone does not stop the draw: when no view is cached
after the `UpdateSurface` step, `RenderLayer` makes no `SetResource` call and
returns `tRGB` as it found it.  When a texture and a view are both held, it
binds that view to `tRGB`. -/
theorem RenderLayer_draws_iff_texture (env : Env) (eff : Effect) (l : Layer) :
    issuesDraw (RenderLayer env eff l).trace = (UpdateSurface env l).1.mTexture.isSome ∧
    ((UpdateSurface env l).1.mSRView = none →
      (RenderLayer env eff l).effect.tRGB = eff.tRGB ∧
      ∀ v, Event.SetResource v ∉ (RenderLayer env eff l).trace) ∧
    (∀ v, (UpdateSurface env l).1.mTexture.isSome = true →
      (UpdateSurface env l).1.mSRView = some v →
      (RenderLayer env eff l).effect.tRGB = some v ∧
      Event.SetResource v ∈ (RenderLayer env eff l).trace) := by
  have hev := UpdateSurface_events env l
  obtain ⟨hnoRes, _⟩ := no_render_calls_before_draw _ hev
  cases ht : (UpdateSurface env l).1.mTexture with
  | none =>
    have h := issuesDraw_of_import _ hev
    unfold issuesDraw at h
    refine ⟨by simp [RenderLayer, ht, issuesDraw, h], ?_, ?_⟩
    · intro _
      have hR : RenderLayer env eff l =
          { layer := (UpdateSurface env l).1, effect := eff,
            trace := [Event.FirePreTransactionCallback] ++ (UpdateSurface env l).2 ++
              [Event.FireDidTransactionCallback] } := by
        simp only [RenderLayer, ht]
      rw [hR]
      exact ⟨rfl, hnoRes⟩
    · intro v hsome
      simp at hsome
  | some t =>
    obtain ⟨hnone, hsome⟩ := drawQuad_resource env eff (UpdateSurface env l).1
      ([Event.FirePreTransactionCallback] ++ (UpdateSurface env l).2 ++
        [Event.FireDidTransactionCallback])
    simp only [RenderLayer, ht, Option.isSome_some]
    refine ⟨drawQuad_issuesDraw env eff _ _, ?_, ?_⟩
    · intro hv
      exact ⟨(hnone hv).1, fun v hm => hnoRes v ((hnone hv).2 v hm)⟩
    · intro v _ hv
      exact hsome v hv

/-- C5 amended, at a sample input: the CPU-surface layer whose first import
fails at `Map` is drawn, and `tRGB` is returned as it was found. -/
theorem RenderLayer_draws_iff_texture_witness :
    issuesDraw (RenderLayer mapFailEnv sampleEffect (Updated cpuLayer)).trace = true ∧
      (RenderLayer mapFailEnv sampleEffect (Updated cpuLayer)).effect.tRGB = sampleEffect.tRGB :=
  have h := RenderLayer_draws_iff_texture mapFailEnv sampleEffect (Updated cpuLayer)
  ⟨h.1, (h.2.1 rfl).1⟩

/-! ### C6: the shader flag byte -/

/-- Bit `b` of the flag byte, in terms of the bits of the mask and of the constants. -/
theorem shaderFlags_testBit (c : ShaderConsts) (mask : Nat) (p a n : Bool) (b : Nat) :
    (shaderFlags c mask p a n).testBit b =
      (decide (b < 8) &&
        (mask.testBit b
          || (if p then c.SHADER_PREMUL.testBit b
              else (c.SHADER_NON_PREMUL.testBit b || c.SHADER_RGBA.testBit b))
          || (if a then c.SHADER_RGBA.testBit b else c.SHADER_RGB.testBit b)
          || (if n then c.SHADER_POINT.testBit b else c.SHADER_LINEAR.testBit b))) := by
  have h256 : (256 : Nat) = 2 ^ 8 := by norm_num
  unfold shaderFlags u8
  simp only [h256, Nat.testBit_mod_two_pow, Nat.testBit_or, Nat.zero_or]
  cases p <;> cases a <;> cases n <;> cases decide (b < 8) <;> simp

/-- Equality of two flag bytes for one mask, when the three "off" constants are
0, the three "on" constants are distinct bits of the byte, and the mask uses
none of those bits. -/
theorem shaderFlags_eq_iff (c : ShaderConsts) (mask i j k : Nat)
    (hrgb : c.SHADER_RGB = 0) (hnp : c.SHADER_NON_PREMUL = 0) (hlin : c.SHADER_LINEAR = 0)
    (hrgba : c.SHADER_RGBA = 2 ^ i) (hpre : c.SHADER_PREMUL = 2 ^ j) (hpt : c.SHADER_POINT = 2 ^ k)
    (hi : i < 8) (hj : j < 8) (hk : k < 8) (hij : i ≠ j) (hik : i ≠ k) (hjk : j ≠ k)
    (hmi : mask.testBit i = false) (hmj : mask.testBit j = false) (hmk : mask.testBit k = false)
    (p a n p1 a1 n1 : Bool) :
    shaderFlags c mask p a n = shaderFlags c mask p1 a1 n1 ↔
      (p = p1 ∧ n = n1 ∧ (p = true → a = a1)) := by
  constructor
  · intro h
    have hbi := congrArg (fun x => Nat.testBit x i) h
    have hbj := congrArg (fun x => Nat.testBit x j) h
    have hbk := congrArg (fun x => Nat.testBit x k) h
    simp only [shaderFlags_testBit, hrgb, hnp, hlin, hrgba, hpre, hpt, Nat.testBit_two_pow,
      Nat.zero_testBit, hmi, hmj, hmk, hi, hj, hk, decide_True, Bool.true_and, Bool.false_or,
      hij, hik, hjk, Ne.symm hij, Ne.symm hik, Ne.symm hjk, decide_False, Bool.or_false]
      at hbi hbj hbk
    revert hbi hbj hbk
    cases p <;> cases a <;> cases n <;> cases p1 <;> cases a1 <;> cases n1 <;> simp
  · rintro ⟨rfl, rfl, ha⟩
    apply Nat.eq_of_testBit_eq
    intro b
    simp only [shaderFlags_testBit, hrgb, hnp, hlin]
    cases p with
    | true => rw [ha rfl]
    | false => cases a <;> cases a1 <;> simp

/-- C6 fails as stated: for two layers with non-premultiplied content that differ
only in `mHasAlpha`, `RenderLayer` passes the same flag byte 4 to `SelectShader`,
so the flag byte is not injective on the 8 combinations. -/
theorem shaderFlags_not_injective :
    Event.SelectShader 4 ∈ (RenderLayer sampleEnv sampleEffect (nonPremulLayer true)).trace ∧
    Event.SelectShader 4 ∈ (RenderLayer sampleEnv sampleEffect (nonPremulLayer false)).trace ∧
    ¬ Function.Injective
        (fun q : Bool × Bool × Bool => shaderFlags sampleConsts 0 q.1 q.2.1 q.2.2) :=
  ⟨by decide, by decide,
   fun h => absurd (@h (false, true, false) (false, false, false) (by decide)) (by decide)⟩

/-- C6, as amended: assume `SHADER_RGB`, `SHADER_NON_PREMUL` and `SHADER_LINEAR`
are 0, `SHADER_RGBA`, `SHADER_PREMUL` and `SHADER_POINT` are three distinct bits
of the byte, and the mask contribution `LoadMaskTexture` has none of those three
bits set.  In a `RenderLayer` call that reaches the draw, the one flag byte
passed to `SelectShader` is `shaderFlags` of the mask and of
`mDataIsPremultiplied`, `mHasAlpha` and `mFilter == FILTER_NEAREST`, and the
technique applied is the one `SelectShader` returns for it.  For one mask
contribution, two layers get the same flag byte exactly when they agree on
`mDataIsPremultiplied` and on the filter test and, if premultiplied, on
`mHasAlpha`: non-premultiplied content is flagged RGBA whatever `mHasAlpha` is. -/
theorem RenderLayer_shader_flags (env : Env) (eff1 eff2 : Effect) (l1 l2 : Layer) (i j k : Nat)
    (hrgb : env.consts.SHADER_RGB = 0) (hnp : env.consts.SHADER_NON_PREMUL = 0)
    (hlin : env.consts.SHADER_LINEAR = 0)
    (hrgba : env.consts.SHADER_RGBA = 2 ^ i) (hpre : env.consts.SHADER_PREMUL = 2 ^ j)
    (hpt : env.consts.SHADER_POINT = 2 ^ k)
    (hi : i < 8) (hj : j < 8) (hk : k < 8) (hij : i ≠ j) (hik : i ≠ k) (hjk : j ≠ k)
    (hmi : env.LoadMaskTexture.testBit i = false) (hmj : env.LoadMaskTexture.testBit j = false)
    (hmk : env.LoadMaskTexture.testBit k = false)
    (h1 : (UpdateSurface env l1).1.mTexture.isSome = true)
    (h2 : (UpdateSurface env l2).1.mTexture.isSome = true) :
    (∀ f, Event.SelectShader f ∈ (RenderLayer env eff1 l1).trace ↔
      f = shaderFlags env.consts env.LoadMaskTexture l1.mDataIsPremultiplied l1.mHasAlpha
            (decide (l1.mFilter = GraphicsFilter.FILTER_NEAREST))) ∧
    (∀ f, Event.SelectShader f ∈ (RenderLayer env eff2 l2).trace ↔
      f = shaderFlags env.consts env.LoadMaskTexture l2.mDataIsPremultiplied l2.mHasAlpha
            (decide (l2.mFilter = GraphicsFilter.FILTER_NEAREST))) ∧
    Event.ApplyPass (env.SelectShader
        (shaderFlags env.consts env.LoadMaskTexture l1.mDataIsPremultiplied l1.mHasAlpha
          (decide (l1.mFilter = GraphicsFilter.FILTER_NEAREST)))) ∈ (RenderLayer env eff1 l1).trace ∧
    (shaderFlags env.consts env.LoadMaskTexture l1.mDataIsPremultiplied l1.mHasAlpha
          (decide (l1.mFilter = GraphicsFilter.FILTER_NEAREST))
        = shaderFlags env.consts env.LoadMaskTexture l2.mDataIsPremultiplied l2.mHasAlpha
            (decide (l2.mFilter = GraphicsFilter.FILTER_NEAREST)) ↔
      (l1.mDataIsPremultiplied = l2.mDataIsPremultiplied ∧
        decide (l1.mFilter = GraphicsFilter.FILTER_NEAREST)
          = decide (l2.mFilter = GraphicsFilter.FILTER_NEAREST) ∧
        (l1.mDataIsPremultiplied = true → l1.mHasAlpha = l2.mHasAlpha))) := by
  have passed : ∀ (eff : Effect) (l : Layer), (UpdateSurface env l).1.mTexture.isSome = true →
      (∀ f, Event.SelectShader f ∈ (RenderLayer env eff l).trace ↔
        f = shaderFlags env.consts env.LoadMaskTexture l.mDataIsPremultiplied l.mHasAlpha
              (decide (l.mFilter = GraphicsFilter.FILTER_NEAREST))) ∧
      Event.ApplyPass (env.SelectShader
        (shaderFlags env.consts env.LoadMaskTexture l.mDataIsPremultiplied l.mHasAlpha
          (decide (l.mFilter = GraphicsFilter.FILTER_NEAREST)))) ∈ (RenderLayer env eff l).trace := by
    intro eff l h
    obtain ⟨t, ht⟩ := Option.isSome_iff_exists.mp h
    obtain ⟨hp, ha, hf⟩ := UpdateSurface_flag_inputs env l
    obtain ⟨_, hnoSel⟩ := no_render_calls_before_draw _ (UpdateSurface_events env l)
    have hR : RenderLayer env eff l = drawQuad env eff (UpdateSurface env l).1
        ([Event.FirePreTransactionCallback] ++ (UpdateSurface env l).2 ++
          [Event.FireDidTransactionCallback]) := by
      simp only [RenderLayer, ht]
    rw [hR]
    constructor
    · intro f
      have hs := (drawQuad_select env eff (UpdateSurface env l).1
        ([Event.FirePreTransactionCallback] ++ (UpdateSurface env l).2 ++
          [Event.FireDidTransactionCallback]) f).1
      rw [hp, ha, hf] at hs
      constructor
      · intro hm
        rcases hs.mp hm with hm1 | hm1
        · exact absurd hm1 (hnoSel f)
        · exact hm1
      · intro hfe
        exact hs.mpr (Or.inr hfe)
    · have hs := (drawQuad_select env eff (UpdateSurface env l).1
        ([Event.FirePreTransactionCallback] ++ (UpdateSurface env l).2 ++
          [Event.FireDidTransactionCallback]) 0).2
      rw [hp, ha, hf] at hs
      exact hs
  exact ⟨(passed eff1 l1 h1).1, (passed eff2 l2 h2).1, (passed eff1 l1 h1).2,
    shaderFlags_eq_iff env.consts env.LoadMaskTexture i j k hrgb hnp hlin hrgba hpre hpt
      hi hj hk hij hik hjk hmi hmj hmk _ _ _ _ _ _⟩

/-- C6 amended, at a sample input: RGBA, PREMUL and POINT are bits 2, 3 and 4,
the mask is 0, and two premultiplied layers differ in `mHasAlpha`; `RenderLayer`
passes byte 12 for the one with alpha, and the two bytes differ. -/
theorem RenderLayer_shader_flags_witness :
    Event.SelectShader 12 ∈ (RenderLayer sampleEnv sampleEffect (premulLayer true)).trace ∧
    shaderFlags sampleConsts 0 true true false ≠ shaderFlags sampleConsts 0 true false false :=
  have h := RenderLayer_shader_flags sampleEnv sampleEffect sampleEffect
    (premulLayer true) (premulLayer false) 2 3 4 rfl rfl rfl rfl rfl rfl
    (by decide) (by decide) (by decide) (by decide) (by decide) (by decide)
    (by decide) (by decide) (by decide) rfl rfl
  ⟨(h.1 12).mpr (by decide), fun he => absurd ((h.2.2.2.mp he).2.2 rfl) (by decide)⟩

/-! ### C7: the texture rectangle around the draw -/

/-- C7: in a `RenderLayer` call that reaches the draw (a texture is held after
the `UpdateSurface` step): with origin `BottomLeft`, `Draw(4, 0)` is issued, the
texture rectangle is (0, 1, 1, -1) when it is issued, and it is (0, 0, 1, 1) when
`RenderLayer` returns; with origin `TopLeft`, `RenderLayer` never writes the
texture rectangle and returns it as it found it.  The layer returned is the one
`UpdateSurface` left: the flip writes no field of the layer. -/
theorem RenderLayer_texture_coords (env : Env) (eff : Effect) (l : Layer)
    (hdraw : (UpdateSurface env l).1.mTexture.isSome = true) :
    (l.mOriginPos = OriginPos.BottomLeft →
        (∃ e, Event.Draw 4 0 e ∈ (RenderLayer env eff l).trace) ∧
        (∀ n k e, Event.Draw n k e ∈ (RenderLayer env eff l).trace →
          n = 4 ∧ k = 0 ∧
            e.vTextureCoords = { mX := 0, mY := 1, mWidth := 1, mHeight := -1 }) ∧
        (RenderLayer env eff l).effect.vTextureCoords
          = { mX := 0, mY := 0, mWidth := 1, mHeight := 1 }) ∧
    (l.mOriginPos = OriginPos.TopLeft →
        (∃ e, Event.Draw 4 0 e ∈ (RenderLayer env eff l).trace) ∧
        (∀ c, Event.SetTextureCoords c ∉ (RenderLayer env eff l).trace) ∧
        (RenderLayer env eff l).effect.vTextureCoords = eff.vTextureCoords) ∧
    (RenderLayer env eff l).layer = (UpdateSurface env l).1 := by
  obtain ⟨t, ht⟩ := Option.isSome_iff_exists.mp hdraw
  have horigin := UpdateSurface_origin env l
  have hev := UpdateSurface_events env l
  obtain ⟨added, htr, ⟨e0, he0⟩, hflip, hplain⟩ := drawQuad_trace env eff (UpdateSurface env l).1
    ([Event.FirePreTransactionCallback] ++ (UpdateSurface env l).2 ++
      [Event.FireDidTransactionCallback])
  obtain ⟨heffFlip, heffPlain, hlayer⟩ := drawQuad_effect env eff (UpdateSurface env l).1
    ([Event.FirePreTransactionCallback] ++ (UpdateSurface env l).2 ++
      [Event.FireDidTransactionCallback])
  have hR : RenderLayer env eff l = drawQuad env eff (UpdateSurface env l).1
      ([Event.FirePreTransactionCallback] ++ (UpdateSurface env l).2 ++
        [Event.FireDidTransactionCallback]) := by
    simp only [RenderLayer, ht]
  rw [hR, htr]
  rw [horigin] at hflip hplain heffFlip heffPlain
  refine ⟨fun hb => ⟨⟨e0, ?_⟩, ?_, heffFlip hb⟩, fun htl => ⟨⟨e0, ?_⟩, ?_, heffPlain htl⟩, hlayer⟩
  · exact List.mem_append_right _ he0
  · intro n k e hm
    rcases List.mem_append.mp hm with hm | hm
    · exfalso
      simp only [List.mem_append, List.mem_singleton, reduceCtorEq, false_or, or_false] at hm
      exact no_draw_of_import _ hev n k e hm
    · exact hflip hb n k e hm
  · exact List.mem_append_right _ he0
  · intro c hm
    rcases List.mem_append.mp hm with hm | hm
    · simp only [List.mem_append, List.mem_singleton, reduceCtorEq, false_or, or_false] at hm
      exact no_texcoords_of_import _ hev c hm
    · exact hplain htl c hm

/-- C7, at a sample input: a bottom-left layer holding a texture, not dirty. -/
theorem RenderLayer_texture_coords_witness :
    (∃ e, Event.Draw 4 0 e ∈
        (RenderLayer sampleEnv sampleEffect
          { importedLayer with mDirty := false, mOriginPos := OriginPos.BottomLeft }).trace) ∧
    (RenderLayer sampleEnv sampleEffect
        { importedLayer with mDirty := false, mOriginPos := OriginPos.BottomLeft }).effect.vTextureCoords
      = { mX := 0, mY := 0, mWidth := 1, mHeight := 1 } :=
  have h := RenderLayer_texture_coords sampleEnv sampleEffect
    { importedLayer with mDirty := false, mOriginPos := OriginPos.BottomLeft } rfl
  ⟨(h.1 rfl).1, (h.1 rfl).2.2⟩

/-! ### C8: `WaitSync` before the surface is consumed -/

/-- A call list without a surface-consuming call cannot be split at one. -/
theorem no_use_split (tr pre post : List Event) (e : Event)
    (hno : ∀ x ∈ tr, isSurfaceUse x = false) (h : tr = pre ++ e :: post) :
    isSurfaceUse e = false :=
  hno e (by rw [h]; simp)

/-- In a call list of the shape `A ++ WaitSync s :: B`, where `A` consumes no
surface and `B` consumes only `s`, every consuming call is on `s` and comes
after the `WaitSync s`. -/
theorem wait_precedes_of_shape (s : SharedSurface) (A B pre post : List Event) (e : Event)
    (hA : ∀ x ∈ A, isSurfaceUse x = false)
    (hB : ∀ x ∈ B, isSurfaceUse x = true → usesSurface s x = true)
    (h : A ++ Event.WaitSync s :: B = pre ++ e :: post) (he : isSurfaceUse e = true) :
    usesSurface s e = true ∧ Event.WaitSync s ∈ pre := by
  rcases List.append_eq_append_iff.mp h with ⟨a1, hpre, hrest⟩ | ⟨c1, hA1, hrest⟩
  · cases a1 with
    | nil =>
      simp only [List.nil_append, List.cons.injEq] at hrest
      rw [← hrest.1] at he
      simp [isSurfaceUse] at he
    | cons w a2 =>
      simp only [List.cons_append, List.cons.injEq] at hrest
      refine ⟨hB e (by rw [hrest.2]; simp) he, ?_⟩
      rw [hpre, ← hrest.1]
      simp
  · cases c1 with
    | nil =>
      simp only [List.nil_append, List.cons.injEq] at hrest
      rw [hrest.1] at he
      simp [isSurfaceUse] at he
    | cons w c2 =>
      simp only [List.cons_append, List.cons.injEq] at hrest
      have : isSurfaceUse e = false := hA e (by rw [hA1, ← hrest.1]; simp)
      rw [this] at he
      exact absurd he (by simp)

/-- The calls `mapAndWrite` adds: the only surface it can consume is the one it was handed. -/
theorem mapAndWrite_trace (env : Env) (l : Layer) (tex : Texture) (surf : Option SharedSurface)
    (tr : List Event) :
    ∃ added, (mapAndWrite env l tex surf tr).2 = tr ++ added ∧
      ∀ x ∈ added, isSurfaceUse x = true → ∃ s, surf = some s ∧ usesSurface s x = true := by
  unfold mapAndWrite
  cases hm : env.Map tex <;> cases hc : env.CreateDrawTargetForD3D10Texture tex <;>
    cases surf <;> cases hs : l.mSurface <;>
    simp only [Bool.not_true, Bool.not_false, if_true, if_false, Bool.false_eq_true,
      List.append_assoc] <;>
    refine ⟨_, rfl, ?_⟩ <;> simp [isSurfaceUse, usesSurface]
  all_goals
    intro a ha
    rcases ha with ⟨_, rfl⟩ | rfl <;> simp

/-- The calls of `importFrame`, started with calls `tr` that consume no surface:
either no surface is consumed at all, or the list is `A ++ WaitSync s :: B` with
`s` the front surface of the layer's GL context, no consumption in `A`, and only
consumption of `s` in `B`. -/
theorem importFrame_shape (env : Env) (l : Layer) (tr : List Event)
    (htr : ∀ x ∈ tr, isSurfaceUse x = false) :
    (∀ x ∈ (importFrame env l tr).2, isSurfaceUse x = false) ∨
    ∃ gl s A B, l.mGLContext = some gl ∧ env.frontSurf gl = some s ∧
      (importFrame env l tr).2 = A ++ Event.WaitSync s :: B ∧
      (∀ x ∈ A, isSurfaceUse x = false) ∧
      (∀ x ∈ B, isSurfaceUse x = true → usesSurface s x = true) := by
  rcases Option.eq_none_or_eq_some l.mTexture with ht | ⟨tex, ht⟩
  · left
    simp only [importFrame, ht]
    exact htr
  rcases Option.eq_none_or_eq_some l.mGLContext with hg | ⟨gl, hg⟩
  · left
    obtain ⟨added, hadd, huse⟩ := mapAndWrite_trace env l tex none tr
    simp only [importFrame, ht, hg, hadd]
    intro x hx
    rcases List.mem_append.mp hx with hx | hx
    · exact htr x hx
    · cases hux : isSurfaceUse x with
      | false => rfl
      | true =>
        obtain ⟨s, hs, _⟩ := huse x hx hux
        exact absurd hs (by simp)
  rcases Option.eq_none_or_eq_some (env.frontSurf gl) with hf | ⟨surf, hf⟩
  · left
    simp only [importFrame, ht, hg, hf]
    exact htr
  right
  refine ⟨gl, surf, tr, ?_⟩
  by_cases hty : surf.mType = SharedSurfaceType.EGLSurfaceANGLE
  · rcases Option.eq_none_or_eq_some (env.OpenSharedResource surf.shareHandle) with ho | ⟨opened, ho⟩
    · refine ⟨[Event.GetShareHandle surf, Event.OpenSharedResource surf.shareHandle],
        hg, hf, ?_, htr, ?_⟩
      · simp only [importFrame, ht, hg, hf, hty, if_true, ho, List.append_assoc,
          List.singleton_append]
      · simp [isSurfaceUse, usesSurface]
    · refine ⟨[Event.GetShareHandle surf, Event.OpenSharedResource surf.shareHandle,
        Event.CreateShaderResourceView opened], hg, hf, ?_, htr, ?_⟩
      · simp only [importFrame, ht, hg, hf, hty, if_true, ho, List.append_assoc,
          List.singleton_append, List.cons_append, List.nil_append]
      · simp [isSurfaceUse, usesSurface]
  · obtain ⟨added, hadd, huse⟩ := mapAndWrite_trace env l tex (some surf)
      (tr ++ [Event.WaitSync surf])
    refine ⟨added, hg, hf, ?_, htr, ?_⟩
    · simp only [importFrame, ht, hg, hf, hty, if_false, hadd, List.append_assoc,
        List.singleton_append]
    · intro x hx hux
      obtain ⟨s, hs, hu⟩ := huse x hx hux
      simp only [Option.some.injEq] at hs
      rw [hs]
      exact hu

/-- C8: split the calls of one `UpdateSurface` at any call `e` that consumes a
shared surface (`GetShareHandle`, `OpenSharedResource`, `ReadbackSharedSurface`).
Then the layer is in GPU-context mode, the surface consumed is the front surface
`s` of its context, and `WaitSync s` is among the calls made before `e`. -/
theorem UpdateSurface_wait_before_use (env : Env) (l : Layer) (pre post : List Event) (e : Event)
    (hsplit : (UpdateSurface env l).2 = pre ++ e :: post) (huse : isSurfaceUse e = true) :
    ∃ gl s, l.mGLContext = some gl ∧ env.frontSurf gl = some s ∧
      usesSurface s e = true ∧ Event.WaitSync s ∈ pre := by
  have key : ∀ (l1 : Layer) (tr : List Event), l1.mGLContext = l.mGLContext →
      (∀ x ∈ tr, isSurfaceUse x = false) → (importFrame env l1 tr).2 = pre ++ e :: post →
      ∃ gl s, l.mGLContext = some gl ∧ env.frontSurf gl = some s ∧
        usesSurface s e = true ∧ Event.WaitSync s ∈ pre := by
    intro l1 tr hgl htr hsp
    rcases importFrame_shape env l1 tr htr with hno | ⟨gl, s, A, B, hg, hf, hshape, hA, hB⟩
    · have := no_use_split _ pre post e hno hsp
      rw [this] at huse
      exact absurd huse (by simp)
    · rw [hshape] at hsp
      obtain ⟨h1, h2⟩ := wait_precedes_of_shape s A B pre post e hA hB hsp huse
      exact ⟨gl, s, hgl ▸ hg, hf, h1, h2⟩
  unfold UpdateSurface at hsplit
  cases hd : l.mDirty <;> simp only [IsDirty, hd] at hsplit
  · simp at hsplit
  · cases hdt : l.mDrawTarget <;> cases hi : l.mIsD2DTexture <;>
      simp only [Painted, hdt, hi, Bool.not_true, Bool.false_eq_true, if_false, if_true] at hsplit
    · refine key _ _ ?_ ?_ hsplit
      · rfl
      · simp
    · simp at hsplit
    · refine key _ _ ?_ ?_ hsplit
      · rfl
      · simp [isSurfaceUse]
    · refine key _ _ ?_ ?_ hsplit
      · rfl
      · simp [isSurfaceUse]

/-- C8, at a sample input: the ANGLE import of a dirty GPU-context layer, split
at its `OpenSharedResource`. -/
theorem UpdateSurface_wait_before_use_witness :
    ∃ gl s, importedLayer.mGLContext = some gl ∧ sampleEnv.frontSurf gl = some s ∧
      usesSurface s (Event.OpenSharedResource 42) = true ∧
      Event.WaitSync s ∈
        [Event.WaitSync { id := 7, mType := SharedSurfaceType.EGLSurfaceANGLE, shareHandle := 42 },
         Event.GetShareHandle { id := 7, mType := SharedSurfaceType.EGLSurfaceANGLE, shareHandle := 42 }] :=
  UpdateSurface_wait_before_use sampleEnv importedLayer
    [Event.WaitSync { id := 7, mType := SharedSurfaceType.EGLSurfaceANGLE, shareHandle := 42 },
     Event.GetShareHandle { id := 7, mType := SharedSurfaceType.EGLSurfaceANGLE, shareHandle := 42 }]
    [Event.CreateShaderResourceView { id := 2 }]
    (Event.OpenSharedResource 42) rfl rfl

/-! ### C9: `Unmap` after `Map` -/

/-- The number of `Unmap` calls `mapAndWrite` adds: one when `Map` succeeds and
the drawing target is built (whether or not the readback succeeds), none when
`Map` fails, and none when `Map` succeeds and the drawing target is null. -/
theorem mapAndWrite_unmap_count (env : Env) (l : Layer) (tex : Texture)
    (surf : Option SharedSurface) (tr : List Event) :
    (mapAndWrite env l tex surf tr).2.count (Event.Unmap tex) =
      tr.count (Event.Unmap tex) +
        (if env.Map tex = true ∧ env.CreateDrawTargetForD3D10Texture tex = true then 1 else 0) := by
  unfold mapAndWrite
  cases hm : env.Map tex <;> cases hc : env.CreateDrawTargetForD3D10Texture tex <;>
    cases surf <;> cases hs : l.mSurface <;>
    simp [List.count_append, List.count_cons, List.count_nil]
  all_goals split <;> simp

/-- C9, the failing input evaluated: in CPU-surface mode, when `Map` succeeds and
`CreateDrawTargetForD3D10Texture` returns null, `UpdateSurface` warns and returns;
its calls contain the `Map` and no `Unmap`. -/
theorem UpdateSurface_target_failure_no_unmap :
    ∃ l0 tr0, Initialize sampleEnv cpuData freshLayer = some (l0, tr0) ∧
      targetFailEnv.Map { id := 1 } = true ∧
      (UpdateSurface targetFailEnv (Updated l0)).2 =
        [Event.Flush sampleDrawTarget, Event.Map { id := 1 },
         Event.CreateDrawTargetForD3D10Texture { id := 1 },
         Event.diag Diag.invalidTextureTarget] ∧
      ((UpdateSurface targetFailEnv (Updated l0)).2.count (Event.Unmap { id := 1 })) = 0 :=
  ⟨_, _, rfl, rfl, rfl, by decide⟩

/-! ### C10: the view stored after map-and-write -/

/-- After `Initialize` on a newly constructed layer, an upload view, if there is
one, was created from the texture in `mTexture`. -/
theorem Initialize_upload_view (env : Env) (aData : Data) (b d : Bool) (bounds : IntRect)
    (filter : GraphicsFilter) (l0 : Layer) (tr0 : List Event)
    (hinit : Initialize env aData (construct b d bounds filter) = some (l0, tr0))
    (hup : l0.mUploadSRView.isSome = true) :
    ∃ v, l0.mUploadSRView = some v ∧ l0.mTexture = some v.tex := by
  have tail : ∀ (l : Layer) (tr : List Event), l.mUploadSRView = none →
      initReadbackTexture env aData l tr = (l0, tr0) →
      ∃ v, l0.mUploadSRView = some v ∧ l0.mTexture = some v.tex := by
    intro l tr hl heq
    unfold initReadbackTexture at heq
    cases hc : env.CreateTexture2D (toUINT aData.width) (toUINT aData.height) with
    | none =>
      simp only [hc, Prod.mk.injEq] at heq
      rw [← heq.1] at hup
      simp [hl] at hup
    | some t =>
      simp only [hc, Prod.mk.injEq] at heq
      cases hv : env.CreateShaderResourceView t with
      | none =>
        rw [← heq.1] at hup
        simp [createView, hv] at hup
      | some i =>
        refine ⟨{ tex := t, id := i }, ?_, ?_⟩
        · rw [← heq.1]
          simp [createView, hv]
        · rw [← heq.1]
  obtain ⟨g, dtOpt, w, h, p⟩ := aData
  cases g with
  | some gl =>
    simp only [Initialize, Option.some.injEq] at hinit
    exact tail _ _ rfl hinit
  | none =>
    cases dtOpt with
    | none => simp [Initialize] at hinit
    | some dt =>
      obtain ⟨i, native, snap⟩ := dt
      cases native with
      | some texture =>
        simp only [Initialize, Option.some.injEq, Prod.mk.injEq] at hinit
        rw [← hinit.1] at hup
        simp [construct] at hup
      | none =>
        simp only [Initialize, Option.some.injEq] at hinit
        exact tail _ _ rfl hinit

/-- When `mapAndWrite` reaches its `Unmap`, the layer it returns is the one it
was given with `mSRView` replaced by the upload view. -/
theorem mapAndWrite_unmap (env : Env) (l : Layer) (tex : Texture) (surf : Option SharedSurface)
    (tr : List Event) (t : Texture) (hpre : Event.Unmap t ∉ tr)
    (h : Event.Unmap t ∈ (mapAndWrite env l tex surf tr).2) :
    (mapAndWrite env l tex surf tr).1 = { l with mSRView := l.mUploadSRView } := by
  unfold mapAndWrite at h ⊢
  cases hm : env.Map tex <;> cases hc : env.CreateDrawTargetForD3D10Texture tex <;>
    simp only [hm, hc, Bool.not_true, Bool.not_false, if_true, if_false, Bool.false_eq_true] at h ⊢
  all_goals
    exfalso
    simp only [List.mem_append, List.mem_singleton, reduceCtorEq, or_false] at h
    exact hpre h

/-- When `importFrame` reaches an `Unmap`, it has stored the upload view in
`mSRView` and left `mTexture` as it was. -/
theorem importFrame_unmap (env : Env) (l : Layer) (tr : List Event) (t : Texture)
    (hpre : Event.Unmap t ∉ tr) (h : Event.Unmap t ∈ (importFrame env l tr).2) :
    (importFrame env l tr).1 = { l with mSRView := l.mUploadSRView } := by
  rcases Option.eq_none_or_eq_some l.mTexture with ht | ⟨tex, ht⟩
  · simp only [importFrame, ht] at h
    exact absurd h hpre
  rcases Option.eq_none_or_eq_some l.mGLContext with hg | ⟨gl, hg⟩
  · simp only [importFrame, ht, hg] at h
    simpa only [importFrame, ht, hg] using mapAndWrite_unmap env l tex none tr t hpre h
  rcases Option.eq_none_or_eq_some (env.frontSurf gl) with hf | ⟨surf, hf⟩
  · simp only [importFrame, ht, hg, hf] at h
    exact absurd h hpre
  by_cases hty : surf.mType = SharedSurfaceType.EGLSurfaceANGLE
  · exfalso
    rcases Option.eq_none_or_eq_some (env.OpenSharedResource surf.shareHandle) with ho | ⟨o, ho⟩
    · simp only [importFrame, ht, hg, hf, hty, if_true, ho, List.mem_append, List.mem_singleton,
        List.mem_cons, reduceCtorEq, or_false, List.not_mem_nil] at h
      exact hpre h
    · simp only [importFrame, ht, hg, hf, hty, if_true, ho, List.mem_append, List.mem_singleton,
        List.mem_cons, reduceCtorEq, or_false, List.not_mem_nil] at h
      exact hpre h
  · simp only [importFrame, ht, hg, hf, hty, if_false] at h
    simpa only [importFrame, ht, hg, hf, hty, if_false] using
      mapAndWrite_unmap env l tex (some surf) _ t (by simp [hpre]) h

/-- When `UpdateSurface` reaches an `Unmap`, it has stored the upload view in
`mSRView` and left `mTexture` and the upload view as they were. -/
theorem UpdateSurface_unmap (env : Env) (l : Layer) (t : Texture)
    (h : Event.Unmap t ∈ (UpdateSurface env l).2) :
    (UpdateSurface env l).1.mSRView = l.mUploadSRView ∧
      (UpdateSurface env l).1.mTexture = l.mTexture := by
  unfold UpdateSurface at h ⊢
  cases hd : l.mDirty <;> simp only [IsDirty, hd] at h ⊢
  · simp at h
  · cases hdt : l.mDrawTarget <;> cases hi : l.mIsD2DTexture <;>
      simp only [Painted, hdt, hi, Bool.not_true, Bool.false_eq_true, if_false, if_true] at h ⊢
    · rw [importFrame_unmap env _ _ t (by simp) h]
      exact ⟨rfl, rfl⟩
    · simp at h
    · rw [importFrame_unmap env _ _ t (by simp) h]
      exact ⟨rfl, rfl⟩
    · rw [importFrame_unmap env _ _ t (by simp) h]
      exact ⟨rfl, rfl⟩

/-- Over frames none of which has an ANGLE share-handle front surface,
`mTexture`, the upload view and the GL context stay as they were. -/
theorem runFrames_kept (frames : List Frame) (l0 l : Layer)
    (hgl : l.mGLContext = l0.mGLContext)
    (hno : ∀ g ∈ frames, ∀ gl s, l0.mGLContext = some gl → g.env.frontSurf gl = some s →
      s.mType ≠ SharedSurfaceType.EGLSurfaceANGLE) :
    (runFrames l frames).mTexture = l.mTexture ∧
      (runFrames l frames).mUploadSRView = l.mUploadSRView ∧
      (runFrames l frames).mGLContext = l.mGLContext := by
  induction frames generalizing l with
  | nil => exact ⟨rfl, rfl, rfl⟩
  | cons f fs ih =>
    have hstepT : (stepFrame l f).1.mTexture = l.mTexture := by
      unfold stepFrame
      rw [UpdateSurface_texture_kept]
      · cases f.updated <;> rfl
      · intro gl s hg hf
        refine hno f (by simp) gl s ?_ hf
        rw [← hgl, ← hg]
        cases f.updated <;> rfl
    have hstepO : (stepFrame l f).1.mUploadSRView = l.mUploadSRView ∧
        (stepFrame l f).1.mGLContext = l.mGLContext := by
      unfold stepFrame
      obtain ⟨d, t, v, h⟩ := UpdateSurface_layer f.env (if f.updated then Updated l else l)
      rw [h]
      cases f.updated <;> exact ⟨rfl, rfl⟩
    obtain ⟨h1, h2, h3⟩ := ih (stepFrame l f).1 (by rw [hstepO.2, hgl])
      (fun g hg => hno g (List.mem_cons_of_mem _ hg))
    simp only [runFrames]
    exact ⟨by rw [h1, hstepT], by rw [h2, hstepO.1], by rw [h3, hstepO.2]⟩

/-- C10 fails as stated.  First, when `CreateShaderResourceView` fails in
`Initialize` (CPU-surface mode), a later `UpdateSurface` that maps, writes and
unmaps leaves `mSRView` null.  Second, in GPU-context mode, after one import
through an ANGLE share handle (texture 2) a frame with a readback surface maps,
writes and unmaps texture 2 and stores the upload view, which was created from
texture 1. -/
theorem UpdateSurface_view_not_refreshed :
    (∃ l0 tr0, Initialize viewFailEnv cpuData freshLayer = some (l0, tr0) ∧
      Event.Unmap { id := 1 } ∈ (UpdateSurface sampleEnv (Updated l0)).2 ∧
      (UpdateSurface sampleEnv (Updated l0)).1.mSRView = none) ∧
    (∃ l0 tr0, Initialize sampleEnv { cpuData with mGLContext := some sampleGL } freshLayer
        = some (l0, tr0) ∧
      Event.Unmap { id := 2 } ∈
        (stepFrame (runFrames l0 [{ updated := true, env := sampleEnv }])
          { updated := true, env := readbackEnv }).2 ∧
      (stepFrame (runFrames l0 [{ updated := true, env := sampleEnv }])
          { updated := true, env := readbackEnv }).1.mTexture = some { id := 2 } ∧
      (stepFrame (runFrames l0 [{ updated := true, env := sampleEnv }])
          { updated := true, env := readbackEnv }).1.mSRView
        = some { tex := { id := 1 }, id := 101 }) :=
  ⟨⟨_, _, rfl, by decide, rfl⟩, ⟨_, _, rfl, by decide, rfl, rfl⟩⟩

/-- C10, as amended: take a layer on which `Initialize` created the dynamic
texture and its upload view (GPU-context or CPU-surface mode), and any frames of
`UpdateSurface` calls none of which had an ANGLE share-handle front surface.
Whenever a further `UpdateSurface` reaches its `Unmap`, the view in `mSRView`
afterwards is present, is the upload view `Initialize` created, and was created
from the texture held in `mTexture`. -/
theorem UpdateSurface_upload_view (env0 : Env) (aData : Data) (b d : Bool) (bounds : IntRect)
    (filter : GraphicsFilter) (l0 : Layer) (tr0 : List Event) (frames : List Frame) (f : Frame)
    (t : Texture)
    (hinit : Initialize env0 aData (construct b d bounds filter) = some (l0, tr0))
    (hup : l0.mUploadSRView.isSome = true)
    (hno : ∀ g ∈ frames, ∀ gl s, l0.mGLContext = some gl → g.env.frontSurf gl = some s →
      s.mType ≠ SharedSurfaceType.EGLSurfaceANGLE)
    (hunmap : Event.Unmap t ∈ (stepFrame (runFrames l0 frames) f).2) :
    ∃ v, (stepFrame (runFrames l0 frames) f).1.mSRView = some v ∧
      (stepFrame (runFrames l0 frames) f).1.mTexture = some v.tex ∧
      l0.mUploadSRView = some v := by
  obtain ⟨v, hv, htex⟩ := Initialize_upload_view env0 aData b d bounds filter l0 tr0 hinit hup
  obtain ⟨hT, hU, _⟩ := runFrames_kept frames l0 l0 rfl hno
  unfold stepFrame at hunmap ⊢
  obtain ⟨h1, h2⟩ := UpdateSurface_unmap f.env _ t hunmap
  refine ⟨v, ?_, ?_, hv⟩
  · rw [h1, ← hv, ← hU]
    cases f.updated <;> rfl
  · rw [h2, ← htex, ← hT]
    cases f.updated <;> rfl

/-- C10 amended, at a sample input: CPU-surface mode, one earlier frame whose
`Map` failed, then a dirty frame that maps, writes and unmaps. -/
theorem UpdateSurface_upload_view_witness :
    ∃ v, (stepFrame (runFrames cpuLayer [{ updated := true, env := mapFailEnv }])
          { updated := true, env := sampleEnv }).1.mSRView = some v ∧
      (stepFrame (runFrames cpuLayer [{ updated := true, env := mapFailEnv }])
          { updated := true, env := sampleEnv }).1.mTexture = some v.tex ∧
      cpuLayer.mUploadSRView = some v :=
  UpdateSurface_upload_view sampleEnv cpuData false false
    { x := 0, y := 0, width := 0, height := 0 } GraphicsFilter.FILTER_GOOD cpuLayer
    [Event.Snapshot sampleDrawTarget, Event.CreateTexture2D 4 4,
     Event.CreateShaderResourceView { id := 1 }]
    [{ updated := true, env := mapFailEnv }] { updated := true, env := sampleEnv } { id := 1 }
    rfl rfl (by intro g _ gl s hgl; cases hgl) (by decide)

end CanvasLayerD3D10
